import Mathlib

/-!
Shallow embedding of `src/main.py` (EchoLearn backend): the lesson catalog,
the request handlers and the keyword intent classifier, with theorems
checking the specification's claims against them.

Strings are modelled with Lean `String`; Python string primitives
(`str.lower`, `str.strip`, slicing, the `in` containment test) are
translated explicitly below over the underlying character lists.
-/

namespace EchoLearn

/-- Python `needle in hay` helper: does `hay` start with `needle`? -/
def startsWithChars : List Char → List Char → Bool
  | _, [] => true
  | [], _ :: _ => false
  | c :: cs, d :: ds => c == d && startsWithChars cs ds

/-- Python substring containment `needle in hay` over character lists. -/
def containsChars : List Char → List Char → Bool
  | [], needle => needle.isEmpty
  | c :: cs, needle => startsWithChars (c :: cs) needle || containsChars cs needle

/-- Python `needle in hay` on strings (substring containment). -/
def strContains (hay needle : String) : Bool :=
  containsChars hay.data needle.data

/-- Python `str.lower()`: lower-case every character. -/
def pyLower (s : String) : String :=
  ⟨s.data.map Char.toLower⟩

/-- Python `str.strip()`: drop leading and trailing whitespace. -/
def pyStrip (s : String) : String :=
  ⟨(((s.data.dropWhile Char.isWhitespace).reverse.dropWhile Char.isWhitespace).reverse)⟩

/-- Python slicing `s[:n]`: the first `n` characters of `s`. -/
def strTake (s : String) (n : Nat) : String :=
  ⟨s.data.take n⟩

end EchoLearn

namespace EchoLearn

/-- `src/main.py` lines 19-24: the `Lesson` pydantic model. -/
structure Lesson where
  id : String
  title : String
  description : String
  level : String := "beginner"
  topics : List String := []
deriving Repr, DecidableEq

/-- `src/main.py` lines 27-30 after validation: `InterpretRequest` with its
required `transcript : str` field; `context` values are modelled as strings. -/
structure InterpretRequest where
  user_id : Option String := none
  transcript : String
  context : Option (List (String × String)) := none
deriving Repr, DecidableEq

/-- `src/main.py` lines 33-37: the `InterpretResponse` pydantic model.
The float `confidence` is modelled as a rational; no arithmetic is ever
performed on it, the code only stores the literal `0.72`. -/
structure InterpretResponse where
  ai_response : String
  intent : String
  confidence : ℚ
  metadata : List (String × String)
deriving Repr, DecidableEq

/-- The raw JSON body of `POST /api/interpret` before pydantic validation:
`transcript := none` models a body that omits the field entirely. -/
structure RawInterpretBody where
  user_id : Option String := none
  transcript : Option String := none
  context : Option (List (String × String)) := none
deriving Repr, DecidableEq

/-- Outcome of a handler: a 200 JSON body or an HTTP client error. -/
inductive HTTPResult where
  | ok (body : InterpretResponse)
  | clientError (status : Nat) (detail : String)
deriving Repr, DecidableEq

/-- The HTTP status code of a handler outcome. -/
def statusOf : HTTPResult → Nat
  | .ok _ => 200
  | .clientError s _ => s

/-- The intents appearing in a handler outcome (one for a 200, none for an error). -/
def intentsOf : HTTPResult → List String
  | .ok b => [b.intent]
  | .clientError _ _ => []

/-- The confidence of a 200 outcome. -/
def confidenceOf : HTTPResult → Option ℚ
  | .ok b => some b.confidence
  | .clientError _ _ => none

/-- The metadata of a 200 outcome. -/
def metadataOf : HTTPResult → Option (List (String × String))
  | .ok b => some b.metadata
  | .clientError _ _ => none

/-- `src/main.py` lines 92-118: `GET /api/lessons`. Modelled as a function of
`Unit` so that "every call" can be quantified; the body builds the same
literal list on each call. -/
def list_lessons (_ : Unit) : List Lesson :=
  [ { id := "voice-basics",
      title := "Voice Control Basics",
      description := "Learn to navigate EchoLearn using your voice.",
      level := "beginner",
      topics := ["speech-to-text", "commands", "accessibility"] },
    { id := "math-fundamentals",
      title := "Math Fundamentals",
      description := "Practice arithmetic hands-free with guided prompts.",
      level := "beginner",
      topics := ["numbers", "addition", "subtraction"] },
    { id := "science-reading",
      title := "Science Reading Comprehension",
      description := "Listen to short passages and answer questions by voice.",
      level := "intermediate",
      topics := ["comprehension", "listening"] } ]

/-- `src/main.py` lines 131-149: the keyword intent classifier inside
`interpret`, extracted as a pure function on the (stripped) transcript.
It lower-cases the input and walks the if/elif chain in source order. -/
def classify (transcript : String) : String × String :=
  let lower := pyLower transcript
  if ["start", "begin", "go"].any (fun w => strContains lower w) then
    ("session.start",
     "Starting your learning session. Which lesson would you like? Say \x27list lessons\x27 to hear options.")
  else if strContains lower "list" && strContains lower "lesson" then
    ("lesson.list",
     "The lessons available are: Voice Control Basics, Math Fundamentals, and Science Reading Comprehension.")
  else if ["math", "add", "subtract", "plus", "minus"].any (fun w => strContains lower w) then
    ("lesson.math", "Let\x27s practice math. What is three plus five?")
  else if ["stop", "end", "pause"].any (fun w => strContains lower w) then
    ("session.stop", "Okay, pausing. Say \x27resume\x27 when you\x27re ready.")
  else if ["hello", "hi", "hey"].any (fun w => strContains lower w) then
    ("greeting", "Hello! I\x27m Echo, your hands-free tutor. How can I help?")
  else
    ("general.query", "I heard you. How can I assist with your learning today?")

/-- The six intent labels of the classifier. -/
def sixIntents : List String :=
  ["session.start", "lesson.list", "lesson.math", "session.stop", "greeting", "general.query"]

/-- `src/main.py` lines 154-161: the interaction document passed to
`create_document`. The `created_at` wall-clock timestamp is not modelled
(real time); no claim mentions it. -/
structure InteractionDoc where
  user_id : Option String
  transcript : String
  intent : String
  ai_response : String
  context : List (String × String)
deriving Repr, DecidableEq

/-- The persistence collaborator: `none` models `from database import
create_document` raising (module absent); `some f` models an importable
`create_document` where `f collection doc = .error e` models the call
raising an exception and `.ok ()` a successful write. -/
def DBModel : Type :=
  Option (String → InteractionDoc → Except String Unit)

/-- `src/main.py` lines 121-167: the body of `POST /api/interpret` after
pydantic validation. Returns the HTTP outcome together with the list of
documents actually persisted (empty on any swallowed persistence failure,
per the `try/except Exception: pass` of lines 152-165). -/
def interpret (db : DBModel) (req : InterpretRequest) : HTTPResult × List (String × InteractionDoc) :=
  let transcript := pyStrip req.transcript
  if transcript.isEmpty then
    (.clientError 400 "Transcript is required", [])
  else
    let r := classify transcript
    let doc : InteractionDoc :=
      { user_id := req.user_id, transcript := transcript, intent := r.1,
        ai_response := r.2, context := req.context.getD [] }
    let persisted :=
      match db with
      | none => []
      | some create =>
        match create "interaction" doc with
        | .ok _ => [("interaction", doc)]
        | .error _ => []
    (.ok { ai_response := r.2, intent := r.1, confidence := 72 / 100, metadata := [] },
     persisted)

/-- FastAPI request validation for `src/main.py` lines 27-30: `transcript :
str` is a required field of the pydantic model, so a body omitting it is
rejected by the framework with HTTP 422 (Unprocessable Entity) before the
handler runs. -/
def parseInterpretRequest (b : RawInterpretBody) : Except HTTPResult InterpretRequest :=
  match b.transcript with
  | none => .error (.clientError 422 "Field required")
  | some t => .ok { user_id := b.user_id, transcript := t, context := b.context }

/-- The full `POST /api/interpret` pipeline: framework validation, then the
handler. -/
def apiInterpret (db : DBModel) (b : RawInterpretBody) : HTTPResult × List (String × InteractionDoc) :=
  match parseInterpretRequest b with
  | .error e => (e, [])
  | .ok req => interpret db req

/-- The possible states of the database collaborator probed by `GET /test`
(`src/main.py` lines 62-83): `from database import db` raises `ImportError`
or some other exception, or yields `db = None`, or yields a live handle
whose `name` attribute may be absent and whose `list_collection_names()`
either returns a list or raises. -/
inductive DBProbe where
  | importError
  | importOther (msg : String)
  | unavailable
  | connected (name : Option String) (cols : Except String (List String))
deriving Repr

/-- The diagnostic payload of `GET /test` (`src/main.py` lines 53-60). -/
structure TestResponse where
  backend : String
  database : String
  database_url : Option String
  database_name : Option String
  connection_status : String
  collections : List String
deriving Repr, DecidableEq

/-- `src/main.py` lines 50-89: `GET /test`. `url_set` and `name_set` model
whether the `DATABASE_URL` and `DATABASE_NAME` environment variables are
set; exception texts are truncated with `str(e)[:50]`, the collection list
with `[:10]`. Every failure mode yields a normal payload, never an HTTP
error (the function is total). -/
def test_database (probe : DBProbe) (url_set name_set : Bool) : TestResponse :=
  let base : TestResponse :=
    { backend := "✅ Running", database := "❌ Not Available",
      database_url := none, database_name := none,
      connection_status := "Not Connected", collections := [] }
  let r :=
    match probe with
    | .importError => { base with database := "❌ Database module not found" }
    | .importOther e => { base with database := "❌ Error: " ++ strTake e 50 }
    | .unavailable => { base with database := "⚠️  Available but not initialized" }
    | .connected name cols =>
      let r1 := { base with
        database := "✅ Available",
        database_url := some "✅ Configured",
        database_name := some (name.getD "✅ Connected"),
        connection_status := "Connected" }
      match cols with
      | .ok cs => { r1 with collections := cs.take 10, database := "✅ Connected & Working" }
      | .error e => { r1 with database := "⚠️  Connected but Error: " ++ strTake e 50 }
  { r with
    database_url := some (if url_set then "✅ Set" else "❌ Not Set"),
    database_name := some (if name_set then "✅ Set" else "❌ Not Set") }

/-- Spec-side view of the classifier for the refinement check of C1: an
ordered list of keyword predicates paired with their `(intent, response)`
values, in the order the specification states. -/
def specRules : List ((String → Bool) × (String × String)) :=
  [ (fun l => ["start", "begin", "go"].any (fun w => strContains l w),
     ("session.start",
      "Starting your learning session. Which lesson would you like? Say \x27list lessons\x27 to hear options.")),
    (fun l => strContains l "list" && strContains l "lesson",
     ("lesson.list",
      "The lessons available are: Voice Control Basics, Math Fundamentals, and Science Reading Comprehension.")),
    (fun l => ["math", "add", "subtract", "plus", "minus"].any (fun w => strContains l w),
     ("lesson.math", "Let\x27s practice math. What is three plus five?")),
    (fun l => ["stop", "end", "pause"].any (fun w => strContains l w),
     ("session.stop", "Okay, pausing. Say \x27resume\x27 when you\x27re ready.")),
    (fun l => ["hello", "hi", "hey"].any (fun w => strContains l w),
     ("greeting", "Hello! I\x27m Echo, your hands-free tutor. How can I help?")) ]

/-- Spec-side: return the value bound to the first predicate matching the
lowered transcript, or the default when none match. -/
def firstMatch : List ((String → Bool) × (String × String)) → String → String × String → String × String
  | [], _, d => d
  | (p, v) :: rest, l, d => if p l then v else firstMatch rest l d

/-- The spec's default pair for `general.query`. -/
def defaultPair : String × String :=
  ("general.query", "I heard you. How can I assist with your learning today?")

end EchoLearn

namespace EchoLearn

/-! ## Helper lemmas -/

/-- The classifier's intent is always one of the six fixed labels. -/
theorem classify_intent_mem (t : String) : (classify t).1 ∈ sixIntents := by
  unfold classify
  dsimp only
  repeat' split
  all_goals simp [sixIntents]

/-- Stripping an all-whitespace string yields the empty string. -/
theorem pyStrip_all_whitespace (t : String) (hw : t.data.all Char.isWhitespace = true) :
    pyStrip t = "" := by
  unfold pyStrip
  have h1 : t.data.dropWhile Char.isWhitespace = [] := by
    rw [List.dropWhile_eq_nil_iff]
    intro x hx
    exact List.all_eq_true.mp hw x hx
  rw [h1]
  rfl

/-- Python slicing `s[:n]` yields at most `n` characters. -/
theorem strTake_length_le (s : String) (n : Nat) : (strTake s n).length ≤ n := by
  have h : (strTake s n).length = (s.data.take n).length := rfl
  rw [h]
  exact List.length_take_le n s.data

/-! ## Claim theorems -/

/-- Claim C1: for every transcript, the classifier lower-cases it and tests
the keyword predicates in the fixed order start/begin/go, list+lesson, math
keywords, stop/end/pause, hello/hi/hey, returning the pair bound to the
first matching predicate and the default `general.query` pair when none
match; in particular "hello, let\x27s start math" yields `session.start`. -/
theorem classify_first_match_order (t : String) :
    classify t = firstMatch specRules (pyLower t) defaultPair ∧
    (classify "hello, let\x27s start math").1 = "session.start" :=
  ⟨rfl, by decide⟩

/-- Claim C2: with a non-blank transcript, a persistence call that raises
any exception leaves the HTTP outcome of `POST /api/interpret` identical to
the outcome under successful persistence: a 200 carrying the classifier's
intent and response text. -/
theorem interpret_persistence_failure_transparent (req : InterpretRequest)
    (f : String → InteractionDoc → Except String Unit)
    (h : (pyStrip req.transcript).isEmpty = false) :
    (interpret (some f) req).1 = (interpret (some (fun _ _ => Except.ok ())) req).1 ∧
    (interpret (some f) req).1 =
      .ok { ai_response := (classify (pyStrip req.transcript)).2,
            intent := (classify (pyStrip req.transcript)).1,
            confidence := 72 / 100, metadata := [] } := by
  unfold interpret
  simp [h]

/-- Witness for C2 at transcript "hello" and an always-raising collaborator. -/
theorem c2_witness :
    (interpret (some (fun _ _ => Except.error "db down")) { transcript := "hello" }).1 =
      (interpret (some (fun _ _ => Except.ok ())) { transcript := "hello" }).1 :=
  (interpret_persistence_failure_transparent { transcript := "hello" }
    (fun _ _ => Except.error "db down") rfl).1

/-- Claim C3: a present but empty or whitespace-only transcript makes
`POST /api/interpret` return HTTP 400 with detail "Transcript is required",
and nothing is persisted. -/
theorem interpret_blank_transcript_400 (db : DBModel) (b : RawInterpretBody) (t : String)
    (hp : b.transcript = some t) (hw : t.data.all Char.isWhitespace = true) :
    apiInterpret db b = (.clientError 400 "Transcript is required", []) := by
  have hs : pyStrip t = "" := pyStrip_all_whitespace t hw
  simp [apiInterpret, parseInterpretRequest, hp, interpret, hs]
  rfl

/-- Witness for C3 at the whitespace-only transcript "   ". -/
theorem c3_witness :
    apiInterpret none { transcript := some "   " } =
      (.clientError 400 "Transcript is required", []) :=
  interpret_blank_transcript_400 none { transcript := some "   " } "   " rfl (by decide)

/-- Counterexample for C4 as stated: a body omitting the transcript field is
rejected by FastAPI request validation with HTTP 422, not 400. -/
theorem api_interpret_missing_transcript_not_400 :
    statusOf (apiInterpret none { transcript := none }).1 = 422 ∧
    ¬ statusOf (apiInterpret none { transcript := none }).1 = 400 := by
  decide

/-- Claim C4 (amended): a body omitting the transcript field entirely gets a
client error with HTTP status 422 (the framework's validation error), and
nothing is persisted. -/
theorem api_interpret_missing_transcript_422 (db : DBModel) (b : RawInterpretBody)
    (h : b.transcript = none) :
    statusOf (apiInterpret db b).1 = 422 ∧ (apiInterpret db b).2 = [] := by
  simp [apiInterpret, parseInterpretRequest, h, statusOf]

/-- Witness for amended C4 at an empty body. -/
theorem c4_witness :
    statusOf (apiInterpret none { transcript := none }).1 = 422 ∧
    (apiInterpret none { transcript := none } : HTTPResult × List (String × InteractionDoc)).2 = [] :=
  api_interpret_missing_transcript_422 none { transcript := none } rfl

/-- Claim C5: every call of `GET /api/lessons` returns exactly 3 lessons
with ids voice-basics, math-fundamentals, science-reading in that order,
and the list is the same on every call. -/
theorem list_lessons_catalog (u : Unit) :
    (list_lessons u).map Lesson.id = ["voice-basics", "math-fundamentals", "science-reading"] ∧
    (list_lessons u).length = 3 ∧ ∀ v, list_lessons u = list_lessons v :=
  ⟨rfl, rfl, fun _ => rfl⟩

/-- Claim C6: every 200 response of `POST /api/interpret` has confidence
exactly 0.72 and empty metadata, for every collaborator state and request. -/
theorem interpret_ok_confidence_metadata (db : DBModel) (req : InterpretRequest)
    (h : statusOf (interpret db req).1 = 200) :
    confidenceOf (interpret db req).1 = some (72 / 100) ∧
    metadataOf (interpret db req).1 = some [] := by
  revert h
  unfold interpret
  by_cases he : (pyStrip req.transcript).isEmpty <;> simp [he, statusOf, confidenceOf, metadataOf]

/-- Witness for C6 at transcript "hi" with the collaborator absent. -/
theorem c6_witness :
    confidenceOf (interpret none { transcript := "hi" }).1 = some (72 / 100) ∧
    metadataOf (interpret none { transcript := "hi" }).1 = some [] :=
  interpret_ok_confidence_metadata none { transcript := "hi" } rfl

/-- Claim C7: for every collaborator state and request, every intent in a
200 response of `POST /api/interpret` is one of the six fixed labels, and
every persisted interaction record has one of the six labels and a
non-empty transcript. -/
theorem interpret_intents_invariant (db : DBModel) (req : InterpretRequest) :
    ((intentsOf (interpret db req).1).all (fun i => sixIntents.contains i)
      && (interpret db req).2.all
          (fun p => sixIntents.contains p.2.intent && !p.2.transcript.isEmpty)) = true := by
  unfold interpret
  by_cases he : (pyStrip req.transcript).isEmpty
  · simp [he, intentsOf]
  · cases db with
    | none => simp [he, intentsOf, classify_intent_mem]
    | some create =>
      cases hc : create "interaction"
        { user_id := req.user_id, transcript := pyStrip req.transcript,
          intent := (classify (pyStrip req.transcript)).1,
          ai_response := (classify (pyStrip req.transcript)).2,
          context := req.context.getD [] } with
      | ok u => simp [he, hc, intentsOf, classify_intent_mem]
      | error e => simp [he, hc, intentsOf, classify_intent_mem]

/-- Claim C8: "what is 2 plus 2" classifies as `lesson.math` with the exact
canned response text. -/
theorem classify_two_plus_two :
    classify "what is 2 plus 2" =
      ("lesson.math", "Let\x27s practice math. What is three plus five?") := by
  decide

/-- Claim C9: `GET /test` never propagates an error: every probe outcome
yields a plain payload whose collections list has at most 10 entries, and
the import-failure, connection and query failure modes are rendered as
strings carrying at most 50 characters of the exception text. -/
theorem test_database_diagnostics (probe : DBProbe) (u n : Bool) (e : String) (nm : Option String) :
    (test_database probe u n).collections.length ≤ 10 ∧
    (test_database (.importOther e) u n).database = "❌ Error: " ++ strTake e 50 ∧
    (test_database (.connected nm (.error e)) u n).database
      = "⚠️  Connected but Error: " ++ strTake e 50 ∧
    (test_database .importError u n).database = "❌ Database module not found" ∧
    (strTake e 50).length ≤ 50 := by
  refine ⟨?_, rfl, rfl, rfl, strTake_length_le e 50⟩
  cases probe with
  | connected nm2 cols =>
    cases cols with
    | ok cs => simp [test_database, List.length_take_le]
    | error e2 => simp [test_database]
  | importError => simp [test_database]
  | importOther e2 => simp [test_database]
  | unavailable => simp [test_database]

/-- Claim C10: keyword predicates are substring tests, not whole-word
matches: "category" (containing "go") classifies as `session.start` and
"this" (containing "hi") classifies as `greeting`. -/
theorem classify_substring_not_whole_word :
    (classify "category").1 = "session.start" ∧ (classify "this").1 = "greeting" := by
  decide

end EchoLearn
